import Mathlib

/-!
Verification of the configuration-driven rendering pipeline of the
`modern-portfolio` repository (a static, client-rendered portfolio site).

The development shallowly embeds the JavaScript sources:

* `src/js/app.js` — defensive nested-property access (`safeGet`,
  `hasContent`), the content-population pass (`populateContent` and the
  per-section populate routines), the hide-empty-sections sweep
  (`hideEmptySections`), project ordering (`populateProjects`) and the
  document-title resolution (`updateMetadata`).
* `src/js/theme.js` — the `ThemeManager` (constructor, `getSavedMode`,
  `saveMode`, `toggleMode`, `setupSystemPreferenceListener`) together with
  the two theme palettes of `THEME_CONFIG`.
* the animations module — `AnimationController.handleIntersection`, the
  scroll-reveal state machine.

JavaScript values are modelled by an inductive `JSValue` (own-property
access only; prototype-chain lookups are out of scope, except that
`length` and numeric indexing on arrays and strings are modelled).
Operations that can throw a `TypeError` at run time (property access on
`null`/`undefined`, calling string/array methods on other values) are
embedded in `Except String`; pure total JavaScript operations are plain
functions.  The DOM is modelled as an association list from the literal
selector strings used by the code to element records; the selector set of
the static markup (which is an external contract of the render layer) is
modelled from the spec.
-/

set_option autoImplicit false

namespace Portfolio

/-! ## JavaScript value model -/

/-- Model of a JavaScript runtime value, as needed by the data layer:
`undefined`, `null`, booleans, numbers (integral; `NaN` and floats do not
occur in the configuration data), strings, objects (own enumerable
properties, in insertion order) and arrays. -/
inductive JSValue where
  | undefined : JSValue
  | null : JSValue
  | bool : Bool → JSValue
  | num : Int → JSValue
  | str : String → JSValue
  | obj : List (String × JSValue) → JSValue
  | arr : List JSValue → JSValue

namespace JSValue

/-- Whether the value is exactly `undefined` (JavaScript `=== undefined`). -/
def isUndefined : JSValue → Bool
  | undefined => true
  | _ => false

/-- Whether the value is `undefined` or `null` (the values on which
property access throws a `TypeError`). -/
def isNullish : JSValue → Bool
  | undefined => true
  | null => true
  | _ => false

/-- JavaScript truthiness: `undefined`, `null`, `false`, `0` and `""` are
falsy; every other value (including every object and array) is truthy. -/
def truthy : JSValue → Bool
  | undefined => false
  | null => false
  | bool b => b
  | num n => n != 0
  | str s => s != ""
  | obj _ => true
  | arr _ => true

end JSValue

/-! ## Structural string primitives

The JavaScript string operations the sources rely on (`split`, `trim`,
array-index canonicalisation) are implemented structurally so that they
compute by kernel reduction. -/

/-- Recursor for `jsSplit`: scan the input, emitting a segment whenever
the (nonempty) separator is a prefix of the rest.  The character budget
`fuel` only bounds the recursion; it is instantiated with more steps
than characters, so the zero case is unreachable. -/
def jsSplitAux (sep : List Char) : Nat → List Char → List Char → List String
  | 0, rest, acc => [String.mk (acc.reverse ++ rest)]
  | _ + 1, [], acc => [String.mk acc.reverse]
  | fuel + 1, c :: cs, acc =>
    if sep.isPrefixOf (c :: cs) then
      String.mk acc.reverse :: jsSplitAux sep fuel (List.drop sep.length (c :: cs)) []
    else
      jsSplitAux sep fuel cs (c :: acc)

/-- JavaScript `s.split(sep)` for a nonempty literal separator (the only
form the sources use: `'.'`, `' '` and `'\n\n'`): left-to-right
non-overlapping scan; the empty input yields one empty segment. -/
def jsSplit (s sep : String) : List String :=
  if sep.data.isEmpty then s.data.map (fun c => String.mk [c])
  else jsSplitAux sep.data (s.data.length + 1) s.data []

/-- Drop leading whitespace characters. -/
def dropLeadingWs : List Char → List Char
  | [] => []
  | c :: cs => if c.isWhitespace then dropLeadingWs cs else c :: cs

/-- JavaScript `s.trim()`: strip whitespace from both ends. -/
def jsTrim (s : String) : String :=
  String.mk ((dropLeadingWs (dropLeadingWs s.data).reverse).reverse)

/-- Digit run to number, `none` on a non-digit. -/
def digitsToNat : List Char → Nat → Option Nat
  | [], acc => some acc
  | c :: cs, acc =>
    if c.isDigit then digitsToNat cs (acc * 10 + (c.toNat - 48)) else none

/-- A canonical array index as JavaScript understands it: a digit string
without a leading zero (other than `"0"` itself). -/
def parseIndex (s : String) : Option Nat :=
  match s.data with
  | [] => none
  | [c] => if c.isDigit then some (c.toNat - 48) else none
  | c :: cs => if c == '0' then none else digitsToNat (c :: cs) 0

/-- Own-property read `v[key]`, assuming the receiver is not nullish.
Objects use first-match association lookup; arrays and strings support
`length` and canonical numeric indices; property reads on booleans and
numbers yield `undefined`.  (Prototype-chain properties are not
modelled.) -/
def getProp (v : JSValue) (key : String) : JSValue :=
  match v with
  | .obj fields =>
    match fields.find? (fun f => f.fst == key) with
    | some f => f.snd
    | none => .undefined
  | .arr elems =>
    if key == "length" then .num elems.length
    else
      match parseIndex key with
      | some i => if h : i < elems.length then elems.get ⟨i, h⟩ else .undefined
      | none => .undefined
  | .str s =>
    if key == "length" then .num s.length
    else
      match parseIndex key with
      | some i =>
        if h : i < s.data.length then .str (String.mk [s.data.get ⟨i, h⟩]) else .undefined
      | none => .undefined
  | _ => .undefined

/-- Property read `v[key]` as the JavaScript engine performs it: a
`TypeError` is thrown when the receiver is `undefined` or `null`. -/
def getPropE (v : JSValue) (key : String) : Except String JSValue :=
  if v.isNullish then .error "TypeError: cannot read properties of nullish value"
  else .ok (getProp v key)

/-- One step of the `reduce` callback in `safeGet`
(`(acc, part) => acc && acc[part]`): a falsy accumulator short-circuits
and is returned unchanged, otherwise the property is read.  Because a
truthy value is never nullish, the property read cannot throw. -/
def safeGetStep (acc : JSValue) (part : String) : JSValue :=
  if acc.truthy then getProp acc part else acc

/-- Pure value of the fold inside `safeGet` over the dot-separated path
segments, starting from `obj` (`path.split('.').reduce(..., obj)`). -/
def pathFold (obj : JSValue) (path : String) : JSValue :=
  (jsSplit path ".").foldl safeGetStep obj

/-- Pure result of `safeGet(obj, path, defaultValue)` from `app.js`:
the fold result unless it is strictly `undefined`, in which case the
default value. -/
def safeGetV (obj : JSValue) (path : String) (default : JSValue := .undefined) : JSValue :=
  let result := pathFold obj path
  if result.isUndefined then default else result

/-- Translation of `safeGet` from `app.js` with the possible-throw points
made explicit: each `acc && acc[part]` step evaluates `acc[part]` (which
throws on nullish receivers) only when `acc` is truthy. -/
def safeGetE (obj : JSValue) (path : String) (default : JSValue := .undefined) :
    Except String JSValue := do
  let result ← (jsSplit path ".").foldlM
    (fun acc part => if acc.truthy then getPropE acc part else pure acc) obj
  pure (if result.isUndefined then default else result)

/-- Translation of `hasContent` from `app.js`: `null`/`undefined` have no
content; arrays have content iff nonempty; objects iff they have a key;
strings iff nonempty after trimming; every other value has content. -/
def hasContent : JSValue → Bool
  | .null => false
  | .undefined => false
  | .arr elems => elems.length > 0
  | .obj fields => fields.length > 0
  | .str s => (jsTrim s).length > 0
  | _ => true

/-! ## JavaScript operation helpers -/

/-- Value-level JavaScript `a || b`: `a` when truthy, otherwise `b`. -/
def jsOr (a b : JSValue) : JSValue :=
  if a.truthy then a else b

mutual

/-- String coercion as performed by template-literal interpolation and by
`textContent` assignment.  Arrays stringify by joining their elements with
commas, `null` and `undefined` elements becoming empty strings. -/
def jsCoerceString : JSValue → String
  | .undefined => "undefined"
  | .null => "null"
  | .bool b => if b then "true" else "false"
  | .num n => toString n
  | .str s => s
  | .obj _ => "[object Object]"
  | .arr xs => jsCoerceList xs

/-- Stringification of an array body (`Array.prototype.join(',')`). -/
def jsCoerceList : List JSValue → String
  | [] => ""
  | [.undefined] => ""
  | [.null] => ""
  | [x] => jsCoerceString x
  | .undefined :: xs => "," ++ jsCoerceList xs
  | .null :: xs => "," ++ jsCoerceList xs
  | x :: xs => jsCoerceString x ++ "," ++ jsCoerceList xs

end

/-- Receiver of a string method (`.split`, `.replace`): a `TypeError` is
thrown when the value is not a string. -/
def asStringE (v : JSValue) : Except String String :=
  match v with
  | .str s => .ok s
  | _ => .error "TypeError: not a string"

/-- JavaScript `v.map(f).join('')`: throws unless the receiver is an
array, then maps and concatenates. -/
def jsMapJoinE (v : JSValue) (f : JSValue → Except String String) :
    Except String String :=
  match v with
  | .arr xs => do
    let parts ← xs.mapM f
    pure (String.join parts)
  | _ => .error "TypeError: map is not a function"

/-- Effectful list filter (used for `Array.prototype.filter` with a
callback whose property accesses may throw). -/
def filterME (f : JSValue → Except String Bool) :
    List JSValue → Except String (List JSValue)
  | [] => pure []
  | x :: xs => do
    let b ← f x
    let rest ← filterME f xs
    pure (if b then x :: rest else rest)

/-- JavaScript `v.filter(f)`: throws unless the receiver is an array. -/
def jsFilterE (v : JSValue) (f : JSValue → Except String Bool) :
    Except String (List JSValue) :=
  match v with
  | .arr xs => filterME f xs
  | _ => .error "TypeError: filter is not a function"

/-- `Object.entries(v)`: throws on nullish values; objects yield their
own enumerable string-keyed entries in order; arrays and strings yield
index/value pairs; other primitives yield no entries. -/
def entriesE (v : JSValue) : Except String (List (String × JSValue)) :=
  match v with
  | .undefined => .error "TypeError: cannot convert nullish to object"
  | .null => .error "TypeError: cannot convert nullish to object"
  | .obj fields => .ok fields
  | .arr xs => .ok (xs.enum.map (fun p => (toString p.fst, p.snd)))
  | .str s => .ok (s.data.enum.map (fun p => (toString p.fst, .str (String.mk [p.snd]))))
  | _ => .ok []

/-! ## DOM model

The renderer targets a fixed set of CSS selectors provided by the static
markup.  The document is modelled as an association list from the literal
selector strings used in the code to element records; `querySelector`
is a first-match lookup, and the populate routines update the matched
entry in place. -/

/-- Relevant mutable state of a DOM element. -/
structure Elem where
  textContent : String := ""
  innerHTML : String := ""
  displayNone : Bool := false
  attrs : List (String × String) := []
  deriving Repr, DecidableEq

/-- The document: selector-keyed elements. -/
structure Dom where
  elems : List (String × Elem)
  deriving Repr, DecidableEq

/-- Model of `document.querySelector` restricted to the selector contract. -/
def querySelector (dom : Dom) (sel : String) : Option Elem :=
  (dom.elems.find? (fun e => e.fst == sel)).map Prod.snd

/-- Update the element matched by a selector (no-op when absent). -/
def updateElem (dom : Dom) (sel : String) (f : Elem → Elem) : Dom :=
  ⟨dom.elems.map (fun e => if e.fst == sel then (e.fst, f e.snd) else e)⟩

/-- Model of `el.textContent = s`. -/
def setText (dom : Dom) (sel : String) (s : String) : Dom :=
  updateElem dom sel (fun el => { el with textContent := s })

/-- Model of `el.innerHTML = s`. -/
def setHTML (dom : Dom) (sel : String) (s : String) : Dom :=
  updateElem dom sel (fun el => { el with innerHTML := s })

/-- Model of `el.style.display = 'none'`. -/
def hideEl (dom : Dom) (sel : String) : Dom :=
  updateElem dom sel (fun el => { el with displayNone := true })

/-- Model of setting an attribute (`el.href = v`, `el.src = v`, ...). -/
def setAttr (dom : Dom) (sel : String) (key v : String) : Dom :=
  updateElem dom sel (fun el =>
    { el with attrs := (key, v) :: el.attrs.filter (fun a => a.fst != key) })

/-! ## Icons -/

/-- Keys of the icon table in `getIcon` (`app.js`, section 5), paired with
stand-in markup: the claims never inspect the SVG bodies, so each body is
abbreviated to a short distinct tag.  The key set and lookup behaviour
are those of the source. -/
def iconEntries : List (String × String) :=
  [("github", "<svg data-icon=\"github\"></svg>"),
   ("linkedin", "<svg data-icon=\"linkedin\"></svg>"),
   ("twitter", "<svg data-icon=\"twitter\"></svg>"),
   ("dribbble", "<svg data-icon=\"dribbble\"></svg>"),
   ("email", "<svg data-icon=\"email\"></svg>"),
   ("phone", "<svg data-icon=\"phone\"></svg>"),
   ("location", "<svg data-icon=\"location\"></svg>"),
   ("external", "<svg data-icon=\"external\"></svg>"),
   ("download", "<svg data-icon=\"download\"></svg>"),
   ("sun", "<svg data-icon=\"sun\"></svg>"),
   ("moon", "<svg data-icon=\"moon\"></svg>"),
   ("menu", "<svg data-icon=\"menu\"></svg>"),
   ("x", "<svg data-icon=\"x\"></svg>"),
   ("arrow", "<svg data-icon=\"arrow\"></svg>")]

/-- Translation of `getIcon`: look the name up in the icon table, falling
back to the `external` icon for unknown names
(`icons[name] || icons['external']`). -/
def getIcon (name : String) : String :=
  match iconEntries.find? (fun e => e.fst == name) with
  | some e => e.snd
  | none =>
    match iconEntries.find? (fun e => e.fst == "external") with
    | some e => e.snd
    | none => ""

/-! ## Content population (section 2 of `app.js`)

Each populate routine is translated in source order.  Property accesses
that the source guards behind element presence or truthiness checks stay
guarded, so a `TypeError` occurs in the model exactly where the engine
would throw.  Insignificant whitespace inside the template literals is
normalised. -/

/-- Markup for one social link (the template shared by `populateHero` and
`populateContact`); destructuring `{ platform, url, icon }` throws on a
nullish array element. -/
def socialLinkHTML (item : JSValue) : Except String String := do
  let platform ← getPropE item "platform"
  let url ← getPropE item "url"
  let icon ← getPropE item "icon"
  pure ("<a href=\"" ++ jsCoerceString (jsOr url (.str "#"))
    ++ "\" class=\"hero__social-link\" target=\"_blank\" rel=\"noopener noreferrer\" aria-label=\""
    ++ jsCoerceString (jsOr platform (.str "Social link")) ++ "\">"
    ++ getIcon (jsCoerceString (jsOr icon (.str "external"))) ++ "</a>")

/-- Translation of `populateNavigation`: sets the logo to the first
space-separated word of `personal.name` when both the element and a
truthy name exist. -/
def populateNavigationE (data : JSValue) (dom : Dom) : Except String Dom := do
  let name ← safeGetE data "personal.name"
  match querySelector dom ".nav__logo" with
  | none => pure dom
  | some _ =>
    if name.truthy then do
      let s ← asStringE name
      pure (setText dom ".nav__logo" ((jsSplit s " ").headD ""))
    else pure dom

/-- Selector of the hero resume button. -/
def resumeBtnSel : String := ".hero__actions .btn--secondary[download]"

/-- Translation of `populateHero`: tagline, title, description, social
links (container hidden when the social list has no content) and the
resume button (hidden without a resume URL). -/
def populateHeroE (data : JSValue) (dom : Dom) : Except String Dom := do
  let personal ← safeGetE data "personal" (.obj [])
  let social ← safeGetE data "social" (.arr [])
  let dom ← match querySelector dom ".hero__tagline" with
    | none => pure dom
    | some _ => do
      let t ← getPropE personal "title"
      pure (if t.truthy then setText dom ".hero__tagline" (jsCoerceString t) else dom)
  let dom ← match querySelector dom ".hero__title" with
    | none => pure dom
    | some _ => do
      let n ← getPropE personal "name"
      pure (if n.truthy then setText dom ".hero__title" (jsCoerceString n) else dom)
  let dom ← match querySelector dom ".hero__description" with
    | none => pure dom
    | some _ => do
      let t ← getPropE personal "tagline"
      pure (if t.truthy then setText dom ".hero__description" (jsCoerceString t) else dom)
  let dom ← match querySelector dom ".hero__social" with
    | none => pure dom
    | some _ =>
      if hasContent social then do
        let html ← jsMapJoinE social socialLinkHTML
        pure (setHTML dom ".hero__social" html)
      else pure (hideEl dom ".hero__social")
  match querySelector dom resumeBtnSel with
  | none => pure dom
  | some _ => do
    let r ← getPropE personal "resumeUrl"
    if r.truthy then pure (setAttr dom resumeBtnSel "href" (jsCoerceString r))
    else pure (hideEl dom resumeBtnSel)

/-- Translation of `populateAbout`: profile image (wrapper hidden without
an image), summary paragraphs split on blank lines, and the highlights
list (section hidden when empty). -/
def populateAboutE (data : JSValue) (dom : Dom) : Except String Dom := do
  let about ← safeGetE data "about" (.obj [])
  let personal ← safeGetE data "personal" (.obj [])
  let dom ← match querySelector dom ".about__image" with
    | none => pure dom
    | some _ => do
      let pi ← getPropE personal "profileImage"
      if pi.truthy then do
        let n ← getPropE personal "name"
        let dom := setAttr dom ".about__image" "src" (jsCoerceString pi)
        pure (setAttr dom ".about__image" "alt"
          (jsCoerceString (jsOr n (.str "Profile")) ++ " photo"))
      else
        match querySelector dom ".about__image-wrapper" with
        | none => pure dom
        | some _ => pure (hideEl dom ".about__image-wrapper")
  let dom ← match querySelector dom ".about__text" with
    | none => pure dom
    | some _ => do
      let s ← getPropE about "summary"
      if s.truthy then do
        let txt ← asStringE s
        let paragraphs := jsSplit txt "\n\n"
        pure (setHTML dom ".about__text"
          (String.join (paragraphs.map (fun p => "<p>" ++ p ++ "</p>"))))
      else pure (setHTML dom ".about__text" "")
  match querySelector dom ".about__highlights-list" with
  | none => pure dom
  | some _ => do
    let h ← getPropE about "highlights"
    if hasContent h then do
      let html ← jsMapJoinE h (fun x =>
        pure ("<li class=\"about__highlight\">" ++ jsCoerceString x ++ "</li>"))
      pure (setHTML dom ".about__highlights-list" html)
    else
      match querySelector dom ".about__highlights" with
      | none => pure dom
      | some _ => pure (hideEl dom ".about__highlights")

/-- Markup for one experience entry (the template literal inside
`populateExperience`, with its fallback labels and conditional
fragments). -/
def experienceItemHTML (job : JSValue) : Except String String := do
  let company ← getPropE job "company"
  let position ← getPropE job "position"
  let duration ← getPropE job "duration"
  let location ← getPropE job "location"
  let description ← getPropE job "description"
  let achievements0 ← getPropE job "achievements"
  let technologies0 ← getPropE job "technologies"
  let company := jsOr company (.str "Company")
  let position := jsOr position (.str "Position")
  let duration := jsOr duration (.str "")
  let location := jsOr location (.str "")
  let description := jsOr description (.str "")
  let achievements := jsOr achievements0 (.arr [])
  let technologies := jsOr technologies0 (.arr [])
  let achHTML ← if hasContent achievements then do
      let inner ← jsMapJoinE achievements (fun a =>
        pure ("<li class=\"experience__achievement\">" ++ jsCoerceString a ++ "</li>"))
      pure ("<ul class=\"experience__achievements\">" ++ inner ++ "</ul>")
    else pure ""
  let techHTML ← if hasContent technologies then do
      let inner ← jsMapJoinE technologies (fun t =>
        pure ("<span class=\"tag\">" ++ jsCoerceString t ++ "</span>"))
      pure ("<div class=\"experience__technologies\">" ++ inner ++ "</div>")
    else pure ""
  pure ("<article class=\"experience__item\" data-animate=\"fade-up\"><div class=\"experience__meta\">"
    ++ (if duration.truthy then
          "<div class=\"experience__duration\">" ++ jsCoerceString duration ++ "</div>" else "")
    ++ (if location.truthy then
          "<div class=\"experience__location\">" ++ jsCoerceString location ++ "</div>" else "")
    ++ "</div><div class=\"experience__content\"><h3 class=\"experience__company\">"
    ++ jsCoerceString company ++ "</h3><div class=\"experience__position\">"
    ++ jsCoerceString position ++ "</div>"
    ++ (if description.truthy then
          "<p class=\"experience__description\">" ++ jsCoerceString description ++ "</p>" else "")
    ++ achHTML ++ techHTML ++ "</div></article>")

/-- Translation of `populateExperience`. -/
def populateExperienceE (data : JSValue) (dom : Dom) : Except String Dom := do
  let experience ← safeGetE data "experience" (.arr [])
  match querySelector dom ".experience__list" with
  | none => pure dom
  | some _ =>
    if hasContent experience then do
      let html ← jsMapJoinE experience experienceItemHTML
      pure (setHTML dom ".experience__list" html)
    else pure (setHTML dom ".experience__list" "")

/-- Markup for one project card (the template literal inside
`populateProjects`; featured cards use the long description and the
featured card class). -/
def projectCardHTML (project : JSValue) : Except String String := do
  let title0 ← getPropE project "title"
  let description0 ← getPropE project "description"
  let longDescription0 ← getPropE project "longDescription"
  let image0 ← getPropE project "image"
  let technologies0 ← getPropE project "technologies"
  let year0 ← getPropE project "year"
  let liveUrl ← getPropE project "liveUrl"
  let githubUrl ← getPropE project "githubUrl"
  let featured ← getPropE project "featured"
  let title := jsOr title0 (.str "Untitled Project")
  let description := jsOr description0 (.str "")
  let longDescription := jsOr longDescription0 description
  let image := jsOr image0 (.str "")
  let technologies := jsOr technologies0 (.arr [])
  let year := jsOr year0 (.str "")
  let techHTML ← if hasContent technologies then do
      let inner ← jsMapJoinE technologies (fun t =>
        pure ("<span class=\"tag tag--accent\">" ++ jsCoerceString t ++ "</span>"))
      pure ("<div class=\"project-card__technologies\">" ++ inner ++ "</div>")
    else pure ""
  pure ("<article class=\"project-card "
    ++ (if featured.truthy then "project-card--featured" else "")
    ++ "\" data-animate=\"fade-up\">"
    ++ (if image.truthy then
          "<div class=\"project-card__image-wrapper hover-zoom\"><img src=\""
          ++ jsCoerceString image ++ "\" alt=\"" ++ jsCoerceString title
          ++ " preview\" class=\"project-card__image\" loading=\"lazy\"></div>" else "")
    ++ "<div class=\"project-card__content\">"
    ++ (if year.truthy then
          "<span class=\"project-card__year\">" ++ jsCoerceString year ++ "</span>" else "")
    ++ "<h3 class=\"project-card__title\">" ++ jsCoerceString title ++ "</h3>"
    ++ (if description.truthy then
          "<p class=\"project-card__description\">"
          ++ jsCoerceString (if featured.truthy then longDescription else description)
          ++ "</p>" else "")
    ++ techHTML ++ "<div class=\"project-card__links\">"
    ++ (if liveUrl.truthy then
          "<a href=\"" ++ jsCoerceString liveUrl
          ++ "\" class=\"project-card__link hover-arrow\" target=\"_blank\" rel=\"noopener noreferrer\">"
          ++ getIcon "external" ++ " Live Demo</a>" else "")
    ++ (if githubUrl.truthy then
          "<a href=\"" ++ jsCoerceString githubUrl
          ++ "\" class=\"project-card__link hover-arrow\" target=\"_blank\" rel=\"noopener noreferrer\">"
          ++ getIcon "github" ++ " Source</a>" else "")
    ++ "</div></div></article>")

/-- Featured-flag test used by the two filters in `populateProjects`
(`(p) => p.featured`): truthiness of the `featured` property, throwing on
nullish list elements. -/
def featuredTestE (p : JSValue) : Except String Bool := do
  let f ← getPropE p "featured"
  pure f.truthy

/-- Translation of lines 309–314 of `populateProjects`: partition the
input list into featured and non-featured by two order-preserving
filters and concatenate the featured group first. -/
def orderProjectsE (projects : JSValue) : Except String (List JSValue) := do
  let featuredProjects ← jsFilterE projects featuredTestE
  let regularProjects ← jsFilterE projects (fun p => do
    let b ← featuredTestE p
    pure (!b))
  pure (featuredProjects ++ regularProjects)

/-- Translation of `populateProjects`. -/
def populateProjectsE (data : JSValue) (dom : Dom) : Except String Dom := do
  let projects ← safeGetE data "projects" (.arr [])
  match querySelector dom ".projects__grid" with
  | none => pure dom
  | some _ =>
    if hasContent projects then do
      let allProjects ← orderProjectsE projects
      let parts ← allProjects.mapM projectCardHTML
      pure (setHTML dom ".projects__grid" (String.join parts))
    else pure (setHTML dom ".projects__grid" "")

/-- Translation of `populateSkills`: one block per nonempty category in
entry order; empty categories render nothing
(`.filter(Boolean)` drops their empty strings). -/
def populateSkillsE (data : JSValue) (dom : Dom) : Except String Dom := do
  let skills ← safeGetE data "skills" (.obj [])
  match querySelector dom ".skills__grid" with
  | none => pure dom
  | some _ =>
    if hasContent skills then do
      let entries ← entriesE skills
      let parts ← entries.mapM (fun entry =>
        if hasContent entry.snd then do
          let inner ← jsMapJoinE entry.snd (fun skill =>
            pure ("<li class=\"skill-category__item\">" ++ jsCoerceString skill ++ "</li>"))
          pure ("<div class=\"skill-category\" data-animate=\"fade-up\"><h3 class=\"skill-category__title\">"
            ++ entry.fst ++ "</h3><ul class=\"skill-category__list\">" ++ inner ++ "</ul></div>")
        else pure "")
      pure (setHTML dom ".skills__grid" (String.join (parts.filter (fun p => p != ""))))
    else pure (setHTML dom ".skills__grid" "")

/-- Markup for one education entry. -/
def educationItemHTML (edu : JSValue) : Except String String := do
  let degree0 ← getPropE edu "degree"
  let institution0 ← getPropE edu "institution"
  let year0 ← getPropE edu "year"
  let gpa ← getPropE edu "gpa"
  let achievements0 ← getPropE edu "achievements"
  let degree := jsOr degree0 (.str "Degree")
  let institution := jsOr institution0 (.str "Institution")
  let year := jsOr year0 (.str "")
  let achievements := jsOr achievements0 (.arr [])
  let achHTML ← if hasContent achievements then do
      let inner ← jsMapJoinE achievements (fun a =>
        pure ("<li class=\"education__achievement\">" ++ jsCoerceString a ++ "</li>"))
      pure ("<ul class=\"education__achievements\">" ++ inner ++ "</ul>")
    else pure ""
  pure ("<article class=\"education__item\" data-animate=\"fade-up\"><div class=\"education__info\"><h3 class=\"education__degree\">"
    ++ jsCoerceString degree ++ "</h3><div class=\"education__institution\">"
    ++ jsCoerceString institution ++ "</div>"
    ++ (if gpa.truthy then
          "<div class=\"education__gpa\">GPA: " ++ jsCoerceString gpa ++ "</div>" else "")
    ++ achHTML ++ "</div>"
    ++ (if year.truthy then
          "<div class=\"education__year\">" ++ jsCoerceString year ++ "</div>" else "")
    ++ "</article>")

/-- Markup for one certification card. -/
def certificationItemHTML (cert : JSValue) : Except String String := do
  let name0 ← getPropE cert "name"
  let issuer0 ← getPropE cert "issuer"
  let year0 ← getPropE cert "year"
  let credentialUrl ← getPropE cert "credentialUrl"
  let name := jsOr name0 (.str "Certification")
  let issuer := jsOr issuer0 (.str "")
  let year := jsOr year0 (.str "")
  pure ("<article class=\"certification-card\" data-animate=\"fade-up\"><h4 class=\"certification-card__name\">"
    ++ jsCoerceString name ++ "</h4>"
    ++ (if issuer.truthy then
          "<div class=\"certification-card__issuer\">" ++ jsCoerceString issuer ++ "</div>" else "")
    ++ (if year.truthy then
          "<div class=\"certification-card__year\">" ++ jsCoerceString year ++ "</div>" else "")
    ++ (if credentialUrl.truthy then
          "<a href=\"" ++ jsCoerceString credentialUrl
          ++ "\" class=\"certification-card__link hover-arrow\" target=\"_blank\" rel=\"noopener noreferrer\">Verify "
          ++ getIcon "external" ++ "</a>" else "")
    ++ "</article>")

/-- Translation of `populateEducation` (education list and certification
grid). -/
def populateEducationE (data : JSValue) (dom : Dom) : Except String Dom := do
  let education ← safeGetE data "education" (.arr [])
  let certifications ← safeGetE data "certifications" (.arr [])
  let dom ← match querySelector dom ".education__list" with
    | none => pure dom
    | some _ =>
      if hasContent education then do
        let html ← jsMapJoinE education educationItemHTML
        pure (setHTML dom ".education__list" html)
      else pure (setHTML dom ".education__list" "")
  match querySelector dom ".certifications__grid" with
  | none => pure dom
  | some _ =>
    if hasContent certifications then do
      let html ← jsMapJoinE certifications certificationItemHTML
      pure (setHTML dom ".certifications__grid" html)
    else pure (setHTML dom ".certifications__grid" "")

/-- Selector of the contact list item containing a given contact field. -/
def contactItemSel (field : String) : String :=
  ".contact__item:has([data-contact=\"" ++ field ++ "\"])"

/-- Selector of the element bound to a given contact field. -/
def contactElSel (field : String) : String :=
  "[data-contact=\"" ++ field ++ "\"]"

/-- Translation of `populateContact`: email and phone links, location
text (each item hidden when the backing field is falsy) and the social
links block. The phone link strips whitespace from the number
(`replace(/\s/g, '')`). -/
def populateContactE (data : JSValue) (dom : Dom) : Except String Dom := do
  let personal ← safeGetE data "personal" (.obj [])
  let social ← safeGetE data "social" (.arr [])
  let dom ← match querySelector dom (contactElSel "email") with
    | none => pure dom
    | some _ => do
      let e ← getPropE personal "email"
      if e.truthy then
        pure (setHTML dom (contactElSel "email")
          ("<a href=\"mailto:" ++ jsCoerceString e ++ "\">" ++ jsCoerceString e ++ "</a>"))
      else
        match querySelector dom (contactItemSel "email") with
        | none => pure dom
        | some _ => pure (hideEl dom (contactItemSel "email"))
  let dom ← match querySelector dom (contactElSel "phone") with
    | none => pure dom
    | some _ => do
      let p ← getPropE personal "phone"
      if p.truthy then do
        let s ← asStringE p
        let tel := String.mk (s.data.filter (fun c => !c.isWhitespace))
        pure (setHTML dom (contactElSel "phone")
          ("<a href=\"tel:" ++ tel ++ "\">" ++ jsCoerceString p ++ "</a>"))
      else
        match querySelector dom (contactItemSel "phone") with
        | none => pure dom
        | some _ => pure (hideEl dom (contactItemSel "phone"))
  let dom ← match querySelector dom (contactElSel "location") with
    | none => pure dom
    | some _ => do
      let l ← getPropE personal "location"
      if l.truthy then pure (setText dom (contactElSel "location") (jsCoerceString l))
      else
        match querySelector dom (contactItemSel "location") with
        | none => pure dom
        | some _ => pure (hideEl dom (contactItemSel "location"))
  match querySelector dom ".contact__social" with
  | none => pure dom
  | some _ =>
    if hasContent social then do
      let html ← jsMapJoinE social socialLinkHTML
      pure (setHTML dom ".contact__social" html)
    else pure (hideEl dom ".contact__social")

/-- Translation of `populateFooter`; `new Date().getFullYear()` is
modelled by the `year` parameter. -/
def populateFooterE (year : Int) (data : JSValue) (dom : Dom) : Except String Dom := do
  let personal ← safeGetE data "personal" (.obj [])
  let dom := match querySelector dom "[data-year]" with
    | none => dom
    | some _ => setText dom "[data-year]" (toString year)
  match querySelector dom "[data-footer-name]" with
  | none => pure dom
  | some _ => do
    let n ← getPropE personal "name"
    if n.truthy then pure (setText dom "[data-footer-name]" (jsCoerceString n))
    else pure dom

/-- Translation of `populateContent`: the nine per-section populate
routines in source order. -/
def populateContentE (year : Int) (data : JSValue) (dom : Dom) : Except String Dom := do
  let dom ← populateNavigationE data dom
  let dom ← populateHeroE data dom
  let dom ← populateAboutE data dom
  let dom ← populateExperienceE data dom
  let dom ← populateProjectsE data dom
  let dom ← populateSkillsE data dom
  let dom ← populateEducationE data dom
  let dom ← populateContactE data dom
  populateFooterE year data dom

/-! ## Hide-empty-sections sweep -/

/-- The six per-section content predicates of `hideEmptySections`
(`sectionChecks`), paired with their section selectors, in source order.
The `||` between the two `hasContent` calls of the education and contact
checks short-circuits in the source; both operands are effect-free, so
they are sequenced here. -/
def sectionChecksE (data : JSValue) : List (String × Except String Bool) :=
  [("#about", do pure (hasContent (← safeGetE data "about.summary"))),
   ("#experience", do pure (hasContent (← safeGetE data "experience"))),
   ("#projects", do pure (hasContent (← safeGetE data "projects"))),
   ("#skills", do pure (hasContent (← safeGetE data "skills"))),
   ("#education", do
      let e ← safeGetE data "education"
      let c ← safeGetE data "certifications"
      pure (hasContent e || hasContent c)),
   ("#contact", do
      let e ← safeGetE data "personal.email"
      let p ← safeGetE data "personal.phone"
      pure (hasContent e || hasContent p))]

/-- Selector of the navigation link targeting a section
(`.nav__link[href="<selector>"]`). -/
def navLinkSel (sel : String) : String :=
  ".nav__link[href=\"" ++ sel ++ "\"]"

/-- One iteration of the `forEach` in `hideEmptySections`: when the
section is present in the document, evaluate its predicate; with no
content, hide the section and, when present, its navigation link. -/
def hideStepE (dm : Dom) (check : String × Except String Bool) : Except String Dom := do
  match querySelector dm check.fst with
  | none => pure dm
  | some _ => do
    let has ← check.snd
    if has then pure dm
    else
      let dm := hideEl dm check.fst
      match querySelector dm (navLinkSel check.fst) with
      | none => pure dm
      | some _ => pure (hideEl dm (navLinkSel check.fst))

/-- Translation of `hideEmptySections`: the sweep over the six section
checks. -/
def hideEmptySectionsE (data : JSValue) (dom : Dom) : Except String Dom :=
  (sectionChecksE data).foldlM hideStepE dom

/-! ## Pure view of the sweep (used to state and prove its properties) -/

/-- The `#about` predicate of `sectionChecks`, in pure form. -/
def aboutCheck (data : JSValue) : Bool := hasContent (safeGetV data "about.summary")

/-- The `#experience` predicate of `sectionChecks`, in pure form. -/
def experienceCheck (data : JSValue) : Bool := hasContent (safeGetV data "experience")

/-- The `#projects` predicate of `sectionChecks`, in pure form. -/
def projectsCheck (data : JSValue) : Bool := hasContent (safeGetV data "projects")

/-- The `#skills` predicate of `sectionChecks`, in pure form. -/
def skillsCheck (data : JSValue) : Bool := hasContent (safeGetV data "skills")

/-- The `#education` predicate of `sectionChecks`, in pure form. -/
def educationCheck (data : JSValue) : Bool :=
  hasContent (safeGetV data "education") || hasContent (safeGetV data "certifications")

/-- The `#contact` predicate of `sectionChecks`, in pure form. -/
def contactCheck (data : JSValue) : Bool :=
  hasContent (safeGetV data "personal.email") || hasContent (safeGetV data "personal.phone")

/-- The six checks of the sweep with their predicates evaluated. -/
def pureChecks (data : JSValue) : List (String × Bool) :=
  [("#about", aboutCheck data), ("#experience", experienceCheck data),
   ("#projects", projectsCheck data), ("#skills", skillsCheck data),
   ("#education", educationCheck data), ("#contact", contactCheck data)]

/-- The per-section predicate keyed by section selector (`true` for
selectors outside the six optional sections). -/
def sectionHasContent (data : JSValue) (sel : String) : Bool :=
  (((pureChecks data).find? (fun c => c.fst == sel)).map Prod.snd).getD true

/-- The section selectors swept by `hideEmptySections`, in source order. -/
def sectionSelectors : List String :=
  ["#about", "#experience", "#projects", "#skills", "#education", "#contact"]

/-- Pure form of one sweep step (the body of the `forEach` in
`hideEmptySections` with its predicate already evaluated). -/
def hideStepPure (dm : Dom) (check : String × Bool) : Dom :=
  match querySelector dm check.fst with
  | none => dm
  | some _ =>
    if check.snd then dm
    else
      let dm := hideEl dm check.fst
      match querySelector dm (navLinkSel check.fst) with
      | none => dm
      | some _ => hideEl dm (navLinkSel check.fst)

/-! ## Document title resolution -/

/-- Translation of the title assignment in `updateMetadata`
(`document.title = meta.siteTitle || (personal.name ? ... : 'Portfolio')`),
including the two `safeGet` reads that produce `meta` and `personal`. -/
def resolveDocumentTitleE (data : JSValue) : Except String String := do
  let meta ← safeGetE data "meta" (.obj [])
  let personal ← safeGetE data "personal" (.obj [])
  let st ← getPropE meta "siteTitle"
  if st.truthy then pure (jsCoerceString st)
  else do
    let name ← getPropE personal "name"
    if name.truthy then pure (jsCoerceString name ++ " - Portfolio")
    else pure "Portfolio"

/-! ## The static markup -/

/-- Modelled from the spec: the selector contract of the static markup
(§6 "DOM contract"); the HTML document itself is not part of the source
tree, only the selectors the render layer targets are fixed by it.  One
entry per selector used by the populate routines and the sweep: the
navigation logo and per-section navigation links, the hero elements, one
container per list-backed section, the six optional top-level sections
and the contact and footer targets.  Every element starts visible with
empty content. -/
def standardDom : Dom :=
  ⟨[(".nav__logo", {}),
    ("#about", {}), ("#experience", {}), ("#projects", {}),
    ("#skills", {}), ("#education", {}), ("#contact", {}),
    (navLinkSel "#about", {}), (navLinkSel "#experience", {}),
    (navLinkSel "#projects", {}), (navLinkSel "#skills", {}),
    (navLinkSel "#education", {}), (navLinkSel "#contact", {}),
    (".hero__tagline", {}), (".hero__title", {}), (".hero__description", {}),
    (".hero__social", {}), (resumeBtnSel, {}),
    (".about__image", {}), (".about__image-wrapper", {}), (".about__text", {}),
    (".about__highlights", {}), (".about__highlights-list", {}),
    (".experience__list", {}), (".projects__grid", {}), (".skills__grid", {}),
    (".education__list", {}), (".certifications__grid", {}),
    (contactElSel "email", {}), (contactItemSel "email", {}),
    (contactElSel "phone", {}), (contactItemSel "phone", {}),
    (contactElSel "location", {}), (contactItemSel "location", {}),
    (".contact__social", {}),
    ("[data-year]", {}), ("[data-footer-name]", {})]⟩

/-- The full render pass relevant to the empty-configuration claim, in
the order of the `DOMContentLoaded` handler: content population, then
the hide-empty-sections sweep. -/
def fullPassE (year : Int) (data : JSValue) (dom : Dom) : Except String Dom := do
  let dom ← populateContentE year data dom
  hideEmptySectionsE data dom

/-- Whether every optional top-level section and its navigation link
carries `display: none`. -/
def optionalSectionsHidden (dom : Dom) : Bool :=
  sectionSelectors.all (fun sel =>
    (((querySelector dom sel).map Elem.displayNone).getD false)
      && (((querySelector dom (navLinkSel sel)).map Elem.displayNone).getD false))

/-! ## Project ordering at the schema level -/

/-- A project record of the configuration schema, with the fields
consumed by `populateProjects`. -/
structure Project where
  title : String
  description : String
  longDescription : Option String
  image : String
  technologies : List String
  liveUrl : Option String
  githubUrl : Option String
  featured : Bool
  year : String
  deriving Repr, DecidableEq

/-- Fallback record used only as the `getD` default in index statements. -/
def noProject : Project :=
  { title := "", description := "", longDescription := none, image := ""
    technologies := [], liveUrl := none, githubUrl := none
    featured := false, year := "" }

/-- Rendered order of project cards (lines 309–316 of `populateProjects`)
at the schema level: two order-preserving filters split the input into
featured and regular projects, and the featured group is concatenated
first; the card template is then mapped over this list in order. -/
def orderedProjects (projects : List Project) : List Project :=
  projects.filter (fun p => p.featured) ++ projects.filter (fun p => !p.featured)

/-! ## Theme manager (`theme.js`) -/

/-- The theme selection of `THEME_CONFIG`. -/
structure ThemeConfig where
  selectedTheme : String
  defaultMode : String
  deriving Repr, DecidableEq

/-- The configured values of `THEME_CONFIG` (`selectedTheme`,
`defaultMode`). -/
def themeConfig : ThemeConfig :=
  { selectedTheme := "modern-minimal", defaultMode := "light" }

/-- The light palette of the `modern-minimal` theme. -/
def modernMinimalLight : List (String × String) :=
  [("primary", "#1a1a1a"), ("secondary", "#4a4a4a"), ("accent", "#b8860b"),
   ("accentHover", "#9a7209"), ("accentLight", "#f5e6c8"),
   ("background", "#fefefe"), ("surface", "#f7f6f3"),
   ("surfaceElevated", "#ffffff"), ("text", "#1a1a1a"),
   ("textSecondary", "#5a5a5a"), ("textMuted", "#8a8a8a"),
   ("border", "#e8e6e1"), ("borderLight", "#f0eeea"),
   ("success", "#2d5a27"), ("error", "#a63d40"), ("warning", "#b8860b")]

/-- The dark palette of the `modern-minimal` theme. -/
def modernMinimalDark : List (String × String) :=
  [("primary", "#f5f5f5"), ("secondary", "#c0c0c0"), ("accent", "#d4a825"),
   ("accentHover", "#e6b82a"), ("accentLight", "#2a2518"),
   ("background", "#0c0c0c"), ("surface", "#161616"),
   ("surfaceElevated", "#1e1e1e"), ("text", "#f5f5f5"),
   ("textSecondary", "#a0a0a0"), ("textMuted", "#707070"),
   ("border", "#2a2a2a"), ("borderLight", "#1e1e1e"),
   ("success", "#4a9c44"), ("error", "#e05555"), ("warning", "#d4a825")]

/-- The light palette of the `creative-bold` theme. -/
def creativeBoldLight : List (String × String) :=
  [("primary", "#d94f00"), ("secondary", "#1e3a5f"), ("accent", "#e85d04"),
   ("accentHover", "#dc5200"), ("accentLight", "#fff2e8"),
   ("background", "#fffbf7"), ("surface", "#ffffff"),
   ("surfaceElevated", "#ffffff"), ("text", "#1a1a1a"),
   ("textSecondary", "#4a4a4a"), ("textMuted", "#7a7a7a"),
   ("border", "#f0e6dc"), ("borderLight", "#f7f0e8"),
   ("success", "#2d6a4f"), ("error", "#c1292e"), ("warning", "#e85d04")]

/-- The dark palette of the `creative-bold` theme. -/
def creativeBoldDark : List (String × String) :=
  [("primary", "#ff7b3d"), ("secondary", "#6db3f2"), ("accent", "#ff8c4a"),
   ("accentHover", "#ff9d61"), ("accentLight", "#2a1a10"),
   ("background", "#0f0f0f"), ("surface", "#1a1a1a"),
   ("surfaceElevated", "#252525"), ("text", "#f5f5f5"),
   ("textSecondary", "#b0b0b0"), ("textMuted", "#707070"),
   ("border", "#333333"), ("borderLight", "#252525"),
   ("success", "#52b788"), ("error", "#ff6b6b"), ("warning", "#ff8c4a")]

/-- The mode-indexed color palettes of `THEME_CONFIG.themes`
(`theme.colors[mode]`); `none` models the `undefined` lookup for an
unknown theme name or mode. -/
def themeColors (themeName mode : String) : Option (List (String × String)) :=
  if themeName == "modern-minimal" then
    if mode == "light" then some modernMinimalLight
    else if mode == "dark" then some modernMinimalDark
    else none
  else if themeName == "creative-bold" then
    if mode == "light" then some creativeBoldLight
    else if mode == "dark" then some creativeBoldDark
    else none
  else none

/-- Session state of the `ThemeManager` together with what it writes:
the current mode field, the persisted flag (the `localStorage` value
under `portfolio-color-mode`; `none` models an absent key), the mode
whose palette was last projected onto the document by `applyTheme`, and
whether the system-preference listener was registered at `init`
(`setupSystemPreferenceListener` returns early when a saved mode
exists). -/
structure Mgr where
  currentMode : String
  storage : Option String
  applied : Option String
  listenerActive : Bool
  deriving Repr, DecidableEq

/-- Truthiness of `getSavedMode()`: a `null` read and the empty string
are falsy. -/
def savedTruthy (storage : Option String) : Bool :=
  match storage with
  | some s => s != ""
  | none => false

/-- JavaScript `a || b` for the string-or-null result of
`getSavedMode()`. -/
def jsOrStr (a : Option String) (b : String) : String :=
  match a with
  | some s => if s == "" then b else s
  | none => b

/-- The `ThemeManager` constructor followed by `init()`: the current
mode is `this.getSavedMode() || THEME_CONFIG.defaultMode`; `init`
applies the theme and registers the system-preference listener exactly
when no saved mode exists. -/
def initMgr (storage : Option String) : Mgr :=
  let mode := jsOrStr storage themeConfig.defaultMode
  { currentMode := mode
    storage := storage
    applied := some mode
    listenerActive := !savedTruthy storage }

/-- The flip in `toggleMode`
(`this.currentMode === 'light' ? 'dark' : 'light'`). -/
def flipMode (m : String) : String :=
  if m == "light" then "dark" else "light"

/-- Translation of `toggleMode`: flip the mode, persist it via
`saveMode`, and re-apply the theme. -/
def toggleMode (s : Mgr) : Mgr :=
  let m := flipMode s.currentMode
  { s with currentMode := m, storage := some m, applied := some m }

/-- One system color-scheme `change` event: when the listener was
registered and `getSavedMode()` is still falsy at event time, the mode
follows the event (`e.matches ? 'dark' : 'light'`) and the theme is
re-applied; otherwise the event has no effect.  Nothing is persisted. -/
def sysPrefChange (s : Mgr) (matchesDark : Bool) : Mgr :=
  if s.listenerActive && !savedTruthy s.storage then
    let m := if matchesDark then "dark" else "light"
    { s with currentMode := m, applied := some m }
  else s

/-- A session event observable by the theme manager. -/
inductive TEvent where
  | toggle : TEvent
  | sysPref : Bool → TEvent
  deriving Repr, DecidableEq

/-- Whether an event is a system-preference change. -/
def isSysPref : TEvent → Bool
  | .sysPref _ => true
  | .toggle => false

/-- Process one session event. -/
def stepMgr (s : Mgr) : TEvent → Mgr
  | .toggle => toggleMode s
  | .sysPref b => sysPrefChange s b

/-- Process a session event sequence. -/
def runMgr (s : Mgr) (evs : List TEvent) : Mgr :=
  evs.foldl stepMgr s

/-- Strings written to the persisted mode key while processing one
event: `saveMode` is called exactly once per `toggleMode`, with the
flipped mode, and never by the system-preference listener. -/
def storageWrites (s : Mgr) : TEvent → List String
  | .toggle => [flipMode s.currentMode]
  | .sysPref _ => []

/-- All storage writes along a session. -/
def writesTrace (s : Mgr) : List TEvent → List String
  | [] => []
  | e :: evs => storageWrites s e ++ writesTrace (stepMgr s e) evs

/-- The palette currently projected onto the document. -/
def appliedPalette (s : Mgr) : Option (List (String × String)) :=
  s.applied.bind (themeColors themeConfig.selectedTheme)

/-- Statement of claim C1's resolution order, written from the spec's
words for comparison against `initMgr`: the persisted explicit choice
when one exists, otherwise the OS-level system color-scheme preference
when one is reported, otherwise the configured default. -/
def claimedInitialMode (storage sysPref : Option String) (default : String) : String :=
  match storage with
  | some s => if s == "" then sysPref.getD default else s
  | none => sysPref.getD default

/-- The resolution order the code actually implements, stated from the
amended claim's words: the persisted choice when a truthy one exists,
otherwise the configured default; the system preference plays no part in
the initial resolution. -/
def amendedInitialMode (storage : Option String) (default : String) : String :=
  match storage with
  | some s => if s == "" then default else s
  | none => default

/-! ## Scroll-reveal state machine (animations module) -/

/-- The observer options of `AnimationController` (`rootMargin`,
`threshold`, the latter scaled to a percentage to stay integral): the
browser delivers an entry with `isIntersecting = true` exactly when the
element's visible fraction crosses this threshold within the adjusted
root. -/
structure RevealObserverOptions where
  rootMargin : String
  thresholdPercent : Nat
  deriving Repr, DecidableEq

/-- The configured observer options (`0px 0px -10% 0px`, `0.1`). -/
def revealObserverOptions : RevealObserverOptions :=
  { rootMargin := "0px 0px -10% 0px", thresholdPercent := 10 }

/-- Per-element reveal state: whether the `is-visible` class is present
and whether the element is still observed. -/
structure RevealState where
  visible : Bool
  observed : Bool
  deriving Repr, DecidableEq

/-- Translation of `handleIntersection` for one entry concerning the
element: an intersecting entry adds `is-visible` and unobserves the
element; a non-intersecting entry changes nothing.  No branch ever
removes `is-visible`. -/
def handleIntersection (st : RevealState) (isIntersecting : Bool) : RevealState :=
  if isIntersecting then { visible := true, observed := false } else st

/-- Process a sequence of intersection entries for one element (each
entry abstracted to its `isIntersecting` flag). -/
def runReveal (st : RevealState) (evs : List Bool) : RevealState :=
  evs.foldl handleIntersection st

/-- Number of unseen-to-visible transitions along a trace. -/
def revealTransitions (st : RevealState) : List Bool → Nat
  | [] => 0
  | e :: evs =>
    (if !st.visible && (handleIntersection st e).visible then 1 else 0)
      + revealTransitions (handleIntersection st e) evs

/-! ## Pointwise description of the sweep's effect -/

/-- Expected `display: none` change of the sweep, keyed pointwise by
selector: a selector that is one of the six optional sections (or the
navigation link of one) is newly hidden exactly when that section's own
predicate fails; every other selector is untouched. -/
def shouldHideB (b1 b2 b3 b4 b5 b6 : Bool) (sel : String) : Bool :=
  if sel == "#about" || sel == navLinkSel "#about" then !b1
  else if sel == "#experience" || sel == navLinkSel "#experience" then !b2
  else if sel == "#projects" || sel == navLinkSel "#projects" then !b3
  else if sel == "#skills" || sel == navLinkSel "#skills" then !b4
  else if sel == "#education" || sel == navLinkSel "#education" then !b5
  else if sel == "#contact" || sel == navLinkSel "#contact" then !b6
  else false

/-- Descriptive, pointwise statement of the sweep's effect on the
standard document, for comparison with `hideEmptySectionsE`: each
element's hidden flag is or-ed with its own section's (negated)
predicate, independently of the other sections. -/
def expectedSweep (data : JSValue) : Dom :=
  ⟨standardDom.elems.map (fun e =>
    (e.fst, { e.snd with
      displayNone := (e.snd.displayNone
        || shouldHideB (aboutCheck data) (experienceCheck data) (projectsCheck data)
            (skillsCheck data) (educationCheck data) (contactCheck data) e.fst) }))⟩

/-! ## Helper lemmas relating the monadic and the pure reading of `safeGet` -/

theorem safeGetStep_of_truthy (acc : JSValue) (part : String) (h : acc.truthy = true) :
    safeGetStep acc part = getProp acc part := by
  simp [safeGetStep, h]

theorem truthy_not_isNullish (v : JSValue) (h : v.truthy = true) : v.isNullish = false := by
  cases v <;> simp_all [JSValue.truthy, JSValue.isNullish]

theorem getPropE_of_truthy (v : JSValue) (key : String) (h : v.truthy = true) :
    getPropE v key = .ok (getProp v key) := by
  simp [getPropE, truthy_not_isNullish v h]

theorem foldlM_safeGet_eq (parts : List String) :
    ∀ acc : JSValue,
      parts.foldlM (fun acc part => if acc.truthy then getPropE acc part else pure acc) acc
        = (.ok (parts.foldl safeGetStep acc) : Except String JSValue) := by
  induction parts with
  | nil => intro acc; rfl
  | cons p ps ih =>
    intro acc
    by_cases h : acc.truthy = true
    · simp only [List.foldlM, List.foldl, h, if_pos, getPropE_of_truthy acc p h]
      simpa [safeGetStep, h] using ih (getProp acc p)
    · have h' : acc.truthy = false := by simpa using h
      simp only [List.foldlM, List.foldl, h']
      simpa [safeGetStep, h'] using ih acc

/-- The monadic `safeGet` never throws and computes the pure value. -/
theorem safeGetE_eq_ok (obj : JSValue) (path : String) (default : JSValue) :
    safeGetE obj path default = .ok (safeGetV obj path default) := by
  simp [safeGetE, safeGetV, pathFold, foldlM_safeGet_eq]

/-! ## Helper lemmas for the hide-empty-sections sweep -/

theorem ok_bind {α β : Type} (v : α) (f : α → Except String β) :
    (Except.ok v >>= f) = f v := rfl

theorem sectionChecksE_eq (data : JSValue) :
    sectionChecksE data
      = (pureChecks data).map
          (fun c => (c.fst, (Except.ok c.snd : Except String Bool))) := by
  simp [sectionChecksE, pureChecks, safeGetE_eq_ok, ok_bind, aboutCheck,
    experienceCheck, projectsCheck, skillsCheck, educationCheck, contactCheck]

theorem hideStepE_ok (dm : Dom) (sel : String) (b : Bool) :
    hideStepE dm (sel, .ok b) = .ok (hideStepPure dm (sel, b)) := by
  simp only [hideStepE, hideStepPure]
  cases h : querySelector dm sel with
  | none => rfl
  | some el =>
    cases b with
    | true => rfl
    | false =>
      cases h2 : querySelector (hideEl dm sel) (navLinkSel sel) with
      | none => rfl
      | some el2 => rfl

theorem foldlM_hideStep_ok (l : List (String × Bool)) :
    ∀ dm : Dom,
      ((l.map (fun c => (c.fst, (Except.ok c.snd : Except String Bool)))).foldlM
          hideStepE dm)
        = .ok (l.foldl hideStepPure dm) := by
  induction l with
  | nil => intro dm; rfl
  | cons c cs ih =>
    intro dm
    simp only [List.map_cons, List.foldlM, List.foldl, hideStepE_ok]
    simpa using ih (hideStepPure dm c)

theorem hideEmptySectionsE_eq_pure (data : JSValue) (dom : Dom) :
    hideEmptySectionsE data dom = .ok ((pureChecks data).foldl hideStepPure dom) := by
  rw [hideEmptySectionsE, sectionChecksE_eq, foldlM_hideStep_ok]

theorem sweep_standardDom (b1 b2 b3 b4 b5 b6 : Bool) :
    List.foldl hideStepPure standardDom
        [("#about", b1), ("#experience", b2), ("#projects", b3),
         ("#skills", b4), ("#education", b5), ("#contact", b6)]
      = ⟨standardDom.elems.map (fun e =>
          (e.fst, { e.snd with
            displayNone := (e.snd.displayNone
              || shouldHideB b1 b2 b3 b4 b5 b6 e.fst) }))⟩ := by
  cases b1 <;> cases b2 <;> cases b3 <;> cases b4 <;> cases b5 <;> cases b6 <;> rfl

/-! ## Helper lemmas for the theme-manager session machine -/

theorem flipMode_light_or_dark (m : String) :
    (flipMode m == "light" || flipMode m == "dark") = true := by
  by_cases h : m == "light" <;> simp [flipMode, h]

theorem flipMode_truthy (m : String) : savedTruthy (some (flipMode m)) = true := by
  by_cases h : m == "light" <;> simp [flipMode, savedTruthy, h]

theorem storage_stepMgr_truthy (s : Mgr) (e : TEvent)
    (h : savedTruthy s.storage = true) : savedTruthy (stepMgr s e).storage = true := by
  cases e with
  | toggle => exact flipMode_truthy s.currentMode
  | sysPref b =>
    simp only [stepMgr, sysPrefChange]
    split <;> simpa

theorem runMgr_frozen (post : List TEvent) :
    ∀ s : Mgr, savedTruthy s.storage = true → post.all isSysPref = true →
      runMgr s post = s := by
  induction post with
  | nil => intro s _ _; rfl
  | cons e evs ih =>
    intro s hs hall
    simp only [List.all_cons, Bool.and_eq_true] at hall
    cases e with
    | toggle => simp [isSysPref] at hall
    | sysPref b =>
      have hstep : stepMgr s (.sysPref b) = s := by
        simp [stepMgr, sysPrefChange, hs]
      calc runMgr s (.sysPref b :: evs) = runMgr (stepMgr s (.sysPref b)) evs := rfl
        _ = runMgr s evs := by rw [hstep]
        _ = s := ih s hs hall.2

theorem runMgr_sysPrefs (bs : List Bool) :
    ∀ (b : Bool) (s : Mgr), s.listenerActive = true → savedTruthy s.storage = false →
      runMgr s ((b :: bs).map TEvent.sysPref)
        = { s with currentMode := cond (bs.getLastD b) "dark" "light",
                   applied := some (cond (bs.getLastD b) "dark" "light") } := by
  induction bs with
  | nil =>
    intro b s hla hs
    have : sysPrefChange s b
        = { s with currentMode := cond b "dark" "light",
                   applied := some (cond b "dark" "light") } := by
      simp [sysPrefChange, hla, hs]
    simpa [runMgr, stepMgr] using this
  | cons b2 bs ih =>
    intro b s hla hs
    have hstep : stepMgr s (.sysPref b)
        = { s with currentMode := cond b "dark" "light",
                   applied := some (cond b "dark" "light") } := by
      simp [stepMgr, sysPrefChange, hla, hs]
    calc runMgr s ((b :: b2 :: bs).map TEvent.sysPref)
        = runMgr (stepMgr s (.sysPref b)) ((b2 :: bs).map TEvent.sysPref) := rfl
      _ = { s with currentMode := cond (bs.getLastD b2) "dark" "light",
                   applied := some (cond (bs.getLastD b2) "dark" "light") } := by
          rw [hstep]; exact ih b2 _ hla hs
      _ = { s with currentMode := cond ((b2 :: bs).getLastD b) "dark" "light",
                   applied := some (cond ((b2 :: bs).getLastD b) "dark" "light") } := by
          rw [List.getLastD_cons]

theorem writesTrace_all_valid (evs : List TEvent) :
    ∀ s : Mgr,
      (writesTrace s evs).all (fun w => w == "light" || w == "dark") = true := by
  induction evs with
  | nil => intro s; rfl
  | cons e evs ih =>
    intro s
    cases e with
    | toggle =>
      simpa [writesTrace, storageWrites, flipMode_light_or_dark] using ih (stepMgr s .toggle)
    | sysPref b =>
      simpa [writesTrace, storageWrites] using ih (stepMgr s (.sysPref b))

/-! ## Helper lemmas for the reveal state machine -/

theorem runReveal_characterised (evs : List Bool) :
    ∀ st : RevealState,
      runReveal st evs
        = ⟨st.visible || evs.any id, st.observed && !(evs.any id)⟩ := by
  induction evs with
  | nil => intro st; cases st; simp [runReveal]
  | cons e evs ih =>
    intro st
    cases e with
    | true =>
      calc runReveal st (true :: evs) = runReveal ⟨true, false⟩ evs := rfl
        _ = ⟨true || evs.any id, false && !(evs.any id)⟩ := ih _
        _ = ⟨st.visible || (true :: evs).any id,
             st.observed && !((true :: evs).any id)⟩ := by simp
    | false =>
      calc runReveal st (false :: evs) = runReveal st evs := by
            simp [runReveal, handleIntersection]
        _ = ⟨st.visible || evs.any id, st.observed && !(evs.any id)⟩ := ih _
        _ = ⟨st.visible || (false :: evs).any id,
             st.observed && !((false :: evs).any id)⟩ := by simp

theorem revealTransitions_of_visible (evs : List Bool) :
    ∀ st : RevealState, st.visible = true → revealTransitions st evs = 0 := by
  induction evs with
  | nil => intro st _; rfl
  | cons e evs ih =>
    intro st hv
    have hv2 : (handleIntersection st e).visible = true := by
      cases e <;> simp [handleIntersection, hv]
    simp [revealTransitions, hv, ih _ hv2]

theorem revealTransitions_le_one (evs : List Bool) :
    ∀ st : RevealState, revealTransitions st evs ≤ 1 := by
  induction evs with
  | nil => intro st; exact Nat.zero_le 1
  | cons e evs ih =>
    intro st
    by_cases hv : st.visible = true
    · simp [revealTransitions_of_visible (e :: evs) st hv]
    · have hv' : st.visible = false := by simpa using hv
      cases e with
      | true =>
        have h0 : revealTransitions (⟨true, false⟩ : RevealState) evs = 0 :=
          revealTransitions_of_visible evs _ rfl
        simp [revealTransitions, hv', handleIntersection, h0]
      | false =>
        simpa [revealTransitions, hv', handleIntersection] using ih st

/-! ## Claim theorems -/

/-- Claim C1 (counterexample): in a session with nothing persisted and a
dark system preference, the constructor resolves the initial mode to the
configured default `light`; the claimed priority (persisted choice, then
system preference, then default) demands `dark`. -/
theorem initialMode_counterexample :
    (initMgr none).currentMode = "light"
      ∧ claimedInitialMode none (some "dark") themeConfig.defaultMode = "dark"
      ∧ ¬ (initMgr none).currentMode
            = claimedInitialMode none (some "dark") themeConfig.defaultMode := by
  refine ⟨rfl, rfl, ?_⟩
  decide

/-- Claim C1 (amended): the initial mode is the persisted choice when a
truthy one exists and the configured default otherwise; the system
preference plays no part in the initial resolution (it only reaches the
mode through later change events, claim C6). -/
theorem initialMode_amended (storage : Option String) :
    (initMgr storage).currentMode
      = amendedInitialMode storage themeConfig.defaultMode := by
  cases storage with
  | none => rfl
  | some s =>
    by_cases h : s == "" <;> simp [initMgr, jsOrStr, amendedInitialMode, h]

/-- Claim C2 (counterexample): in a fresh session (nothing persisted)
two toggles restore the current mode, but they leave `light` persisted,
so the persisted flag does not return to its pre-toggle (absent)
value. -/
theorem toggleTwice_counterexample :
    (toggleMode (toggleMode (initMgr none))).currentMode = (initMgr none).currentMode
      ∧ ¬ (toggleMode (toggleMode (initMgr none))).storage = (initMgr none).storage := by
  refine ⟨rfl, ?_⟩
  decide

/-- Claim C2 (amended): from any state whose current mode is `light` or
`dark`, toggling twice restores the current mode and re-applies the same
palette whenever the palette was in sync beforehand, and leaves the
persisted flag holding the restored mode — equal to its previous value
whenever that mode was already persisted, while a session that had
nothing persisted ends with the flag set rather than absent. -/
theorem toggleTwice_amended (st ap : Option String) (la : Bool) (m : String)
    (hm : m = "light" ∨ m = "dark") :
    (toggleMode (toggleMode ⟨m, st, ap, la⟩)).currentMode = m
      ∧ (toggleMode (toggleMode ⟨m, st, ap, la⟩)).storage = some m
      ∧ (st = some m → (toggleMode (toggleMode ⟨m, st, ap, la⟩)).storage = st)
      ∧ (ap = some m →
          appliedPalette (toggleMode (toggleMode ⟨m, st, ap, la⟩))
            = appliedPalette ⟨m, st, ap, la⟩) := by
  rcases hm with h | h <;> subst h <;>
    exact ⟨rfl, rfl, fun h2 => by subst h2; rfl, fun h2 => by subst h2; rfl⟩

/-- Witness for the amended C2 theorem: a state with mode `light`, the
flag persisted as `light` and the palette applied. -/
theorem toggleTwice_amended_witness :
    ("light" = "light" ∨ "light" = "dark")
      ∧ (toggleMode (toggleMode ⟨"light", some "light", some "light", true⟩)).storage
          = some "light" :=
  ⟨Or.inl rfl,
    (toggleTwice_amended (some "light") (some "light") true "light" (Or.inl rfl)).2.1⟩

section

set_option maxHeartbeats 4000000

/-- Claim C4: on the fully empty configuration (a `portfolioData` object
with no fields), the complete content-population pass followed by the
hide-empty-sections sweep runs to completion with no thrown error, and
every optional top-level section — and its navigation link — ends
hidden. -/
theorem emptyConfig_never_throws_all_hidden (year : Int) :
    (match fullPassE year (.obj []) standardDom with
      | .ok dom => optionalSectionsHidden dom
      | .error _ => false) = true := by
  rfl

end

/-- Claim C5: for every configuration, the sweep on the standard
document succeeds and equals the pointwise description in which each of
the six optional sections and its navigation link are hidden exactly
when that section's own predicate reports no content (so sections are
judged independently); in particular, when the predicate of a section
fails, both the section's container and its navigation link end
hidden. -/
theorem hideEmptySections_hides_per_predicate (data : JSValue) (sel : String)
    (hsel : sel ∈ sectionSelectors) (hfail : sectionHasContent data sel = false) :
    hideEmptySectionsE data standardDom = .ok (expectedSweep data)
      ∧ ((querySelector (expectedSweep data) sel).map Elem.displayNone).getD false
          = true
      ∧ ((querySelector (expectedSweep data) (navLinkSel sel)).map
            Elem.displayNone).getD false = true := by
  refine ⟨?_, ?_⟩
  · rw [hideEmptySectionsE_eq_pure]
    simp only [pureChecks]
    rw [sweep_standardDom]
    rfl
  · simp only [sectionSelectors, List.mem_cons, List.not_mem_nil, or_false] at hsel
    rcases hsel with h | h | h | h | h | h <;> subst h
    · have hc : aboutCheck data = false := hfail
      constructor
      · show (false || !(aboutCheck data)) = true
        rw [hc]; rfl
      · show (false || !(aboutCheck data)) = true
        rw [hc]; rfl
    · have hc : experienceCheck data = false := hfail
      constructor
      · show (false || !(experienceCheck data)) = true
        rw [hc]; rfl
      · show (false || !(experienceCheck data)) = true
        rw [hc]; rfl
    · have hc : projectsCheck data = false := hfail
      constructor
      · show (false || !(projectsCheck data)) = true
        rw [hc]; rfl
      · show (false || !(projectsCheck data)) = true
        rw [hc]; rfl
    · have hc : skillsCheck data = false := hfail
      constructor
      · show (false || !(skillsCheck data)) = true
        rw [hc]; rfl
      · show (false || !(skillsCheck data)) = true
        rw [hc]; rfl
    · have hc : educationCheck data = false := hfail
      constructor
      · show (false || !(educationCheck data)) = true
        rw [hc]; rfl
      · show (false || !(educationCheck data)) = true
        rw [hc]; rfl
    · have hc : contactCheck data = false := hfail
      constructor
      · show (false || !(contactCheck data)) = true
        rw [hc]; rfl
      · show (false || !(contactCheck data)) = true
        rw [hc]; rfl

/-- Witness for the C5 theorem: the empty configuration and the about
section. -/
theorem hideEmptySections_hides_per_predicate_witness :
    "#about" ∈ sectionSelectors
      ∧ sectionHasContent (.obj []) "#about" = false
      ∧ ((querySelector (expectedSweep (.obj [])) "#about").map
          Elem.displayNone).getD false = true :=
  ⟨by decide, rfl,
    (hideEmptySections_hides_per_predicate (.obj []) "#about" (by decide) rfl).2.1⟩

/-- Claim C6: in a session starting with no persisted mode, every
system-preference change event retargets the current and applied mode to
match the event (the last event decides the final mode); and from the
first explicit toggle on, any tail of system-preference events leaves
the session state completely unchanged (the persisted choice wins for
the rest of the session). -/
theorem systemPreference_until_toggle (st0 : Option String) (b : Bool)
    (bs : List Bool) (pre post : List TEvent) (h0 : savedTruthy st0 = false)
    (hpost : post.all isSysPref = true) :
    ((runMgr (initMgr st0) ((b :: bs).map TEvent.sysPref)).currentMode
        = cond (bs.getLastD b) "dark" "light"
      ∧ (runMgr (initMgr st0) ((b :: bs).map TEvent.sysPref)).applied
        = some (cond (bs.getLastD b) "dark" "light"))
    ∧ runMgr (initMgr st0) (pre ++ TEvent.toggle :: post)
        = runMgr (initMgr st0) (pre ++ [TEvent.toggle]) := by
  have hla : (initMgr st0).listenerActive = true := by
    simp [initMgr, h0]
  have hst : savedTruthy (initMgr st0).storage = false := by
    simpa [initMgr] using h0
  constructor
  · rw [runMgr_sysPrefs bs b (initMgr st0) hla hst]
    exact ⟨rfl, rfl⟩
  · have hsplit : pre ++ TEvent.toggle :: post = (pre ++ [TEvent.toggle]) ++ post := by
      simp
    rw [hsplit, runMgr, List.foldl_append]
    have hmid : savedTruthy (runMgr (initMgr st0) (pre ++ [TEvent.toggle])).storage
        = true := by
      rw [runMgr, List.foldl_append]
      exact flipMode_truthy _
    exact runMgr_frozen post _ hmid hpost

/-- Witness for the C6 theorem: a fresh session receiving two preference
changes, then a toggle followed by one further (inert) preference
change. -/
theorem systemPreference_until_toggle_witness :
    savedTruthy none = false
      ∧ ([TEvent.sysPref true].all isSysPref) = true
      ∧ runMgr (initMgr none) ([TEvent.sysPref true] ++ TEvent.toggle :: [TEvent.sysPref true])
          = runMgr (initMgr none) ([TEvent.sysPref true] ++ [TEvent.toggle]) :=
  ⟨rfl, rfl,
    (systemPreference_until_toggle none true [false] [TEvent.sysPref true]
      [TEvent.sysPref true] rfl rfl).2⟩

/-- Claim C7: with `personal.name = "Jane Doe"`, `personal.title` absent
and `meta.siteTitle` absent, the document title resolves to
`Jane Doe - Portfolio`; with `meta.siteTitle = "Custom Title"` it
resolves to exactly `Custom Title`. -/
theorem documentTitle_fallback_and_override :
    resolveDocumentTitleE (.obj [("personal", .obj [("name", .str "Jane Doe")])])
        = .ok "Jane Doe - Portfolio"
      ∧ resolveDocumentTitleE
          (.obj [("personal", .obj [("name", .str "Jane Doe")]),
                 ("meta", .obj [("siteTitle", .str "Custom Title")])])
        = .ok "Custom Title" := by
  constructor <;> rfl

/-- Claim C3: the rendered project order is the stable partition of the
input list by the featured flag: it is a permutation of the input, each
of the two groups keeps the input's relative order (filtering the output
by either flag value recovers exactly the input's filter), and a
featured card never sits after a non-featured one. -/
theorem projects_stable_partition (ps : List Project) (i j : Nat)
    (hij : i ≤ j) (hj : j < (orderedProjects ps).length)
    (hfeat : ((orderedProjects ps).getD j noProject).featured = true) :
    (orderedProjects ps).Perm ps
      ∧ (orderedProjects ps).filter (fun p => p.featured)
          = ps.filter (fun p => p.featured)
      ∧ (orderedProjects ps).filter (fun p => !p.featured)
          = ps.filter (fun p => !p.featured)
      ∧ ((orderedProjects ps).getD i noProject).featured = true := by
  refine ⟨List.filter_append_perm _ ps, ?_, ?_, ?_⟩
  · simp [orderedProjects, List.filter_append, List.filter_filter]
  · simp [orderedProjects, List.filter_append, List.filter_filter]
  · have hmemA : ∀ p : Project, p ∈ ps.filter (fun q => q.featured) →
        p.featured = true := by
      intro p hp
      simpa using (List.mem_filter.mp hp).2
    have hmemB : ∀ p : Project, p ∈ ps.filter (fun q => !q.featured) →
        p.featured = false := by
      intro p hp
      simpa using (List.mem_filter.mp hp).2
    simp only [orderedProjects] at hj hfeat ⊢
    have hjA : j < (ps.filter (fun q => q.featured)).length := by
      by_contra hge
      push_neg at hge
      rw [List.getD_eq_getElem _ _ hj, List.getElem_append_right hge] at hfeat
      have hmem := List.getElem_mem (l := ps.filter (fun q => !q.featured))
        (n := j - (ps.filter (fun q => q.featured)).length)
        (by rw [List.length_append] at hj; omega)
      rw [hmemB _ hmem] at hfeat
      exact Bool.false_ne_true hfeat
    have hiA : i < (ps.filter (fun q => q.featured)).length :=
      Nat.lt_of_le_of_lt hij hjA
    have hi : i < (ps.filter (fun q => q.featured) ++ ps.filter (fun q => !q.featured)).length :=
      Nat.lt_of_le_of_lt hij hj
    rw [List.getD_eq_getElem _ _ hi, List.getElem_append_left hiA]
    exact hmemA _ (List.getElem_mem hiA)

/-- Witness for the C3 theorem: a two-project list with the featured
project listed second. -/
theorem projects_stable_partition_witness :
    (0 : Nat) ≤ 0
      ∧ 0 < (orderedProjects [{ noProject with title := "plain" },
              { noProject with title := "starred", featured := true }]).length
      ∧ ((orderedProjects [{ noProject with title := "plain" },
              { noProject with title := "starred", featured := true }]).getD 0
            noProject).featured = true :=
  ⟨Nat.le_refl 0, by decide,
    (projects_stable_partition
      [{ noProject with title := "plain" },
       { noProject with title := "starred", featured := true }]
      0 0 (Nat.le_refl 0) (by decide) (by decide)).2.2.2⟩

/-- Claim C8: from any per-element state — in particular the unseen,
observed start state — and over any sequence of intersection events: the
element ends visible iff it started visible or some event intersected
past the threshold, and it stays observed iff it started observed and no
event intersected, so the first intersecting event is exactly the one
that marks it visible and unobserved (stated explicitly for a run of
non-intersecting events followed by the first intersecting one); the
unseen-to-visible transition fires at most once along any trace; and the
visible mark, once present after any prefix of the trace, is never
removed by the remaining events (boolean implication in the last
conjunct). -/
theorem reveal_one_way (st : RevealState) (evs pre post : List Bool) (k : Nat) :
    runReveal st evs = ⟨st.visible || evs.any id, st.observed && !(evs.any id)⟩
      ∧ runReveal st (List.replicate k false ++ [true]) = ⟨true, false⟩
      ∧ revealTransitions st evs ≤ 1
      ∧ (!(runReveal st pre).visible || (runReveal st (pre ++ post)).visible)
          = true := by
  have hrep : (List.replicate k false).any id = false := by
    induction k with
    | zero => rfl
    | succ n ih => simpa [List.replicate] using ih
  refine ⟨runReveal_characterised evs st, ?_, revealTransitions_le_one evs st, ?_⟩
  · rw [runReveal_characterised]
    simp [List.any_append, hrep]
  · rw [runReveal_characterised pre st, runReveal_characterised (pre ++ post) st]
    cases st.visible <;> cases hpre : pre.any id <;>
      simp [List.any_append, hpre]

/-- Claim C9: every string the theme manager ever writes to the
persisted mode key, along any session event sequence and whatever value
may pre-exist in storage, is `light` or `dark`. -/
theorem storage_writes_valid (st0 : Option String) (evs : List TEvent) :
    (writesTrace (initMgr st0) evs).all (fun w => w == "light" || w == "dark")
      = true :=
  writesTrace_all_valid evs (initMgr st0)

/-- Claim C10: `safeGet` never throws and returns the default exactly
when the fold over the path segments is `undefined`, returning the fold
value itself otherwise; and a defined-but-falsy accumulator value
short-circuits the fold, which returns it unchanged without accessing
the remaining segments. -/
theorem safeGet_total_and_characterised (obj d acc : JSValue) (path : String)
    (parts : List String) (hacc : acc.truthy = false) :
    safeGetE obj path d
        = .ok (if (pathFold obj path).isUndefined then d else pathFold obj path)
      ∧ parts.foldl safeGetStep acc = acc := by
  constructor
  · simpa [safeGetV] using safeGetE_eq_ok obj path d
  · induction parts with
    | nil => rfl
    | cons p ps ih =>
      calc (p :: ps).foldl safeGetStep acc = ps.foldl safeGetStep (safeGetStep acc p) := rfl
        _ = ps.foldl safeGetStep acc := by rw [safeGetStep, hacc]; rfl
        _ = acc := ih

/-- Witness for the C10 theorem: a nested object whose intermediate
segment holds the falsy value `0`, which the fold returns unchanged. -/
theorem safeGet_characterised_witness :
    (JSValue.num 0).truthy = false
      ∧ safeGetE (.obj [("a", .obj [("b", .num 0)])]) "a.b.c" (.str "fallback")
          = .ok (if (pathFold (.obj [("a", .obj [("b", .num 0)])]) "a.b.c").isUndefined
                 then .str "fallback"
                 else pathFold (.obj [("a", .obj [("b", .num 0)])]) "a.b.c")
      ∧ ["c"].foldl safeGetStep (JSValue.num 0) = JSValue.num 0 :=
  ⟨rfl,
    (safeGet_total_and_characterised (.obj [("a", .obj [("b", .num 0)])])
      (.str "fallback") (.num 0) "a.b.c" ["c"] rfl).1,
    (safeGet_total_and_characterised (.obj [("a", .obj [("b", .num 0)])])
      (.str "fallback") (.num 0) "a.b.c" ["c"] rfl).2⟩

end Portfolio
